import Mathlib

/-!
Verification of the extraction/normalization engine of the FTTH dashboard
(files app.py and app_Original.py).  The engine part of the code — the text
normalizer, the numeric token cleaners, the category block locator, the
grand-total search and the period labeler — is embedded shallowly below.
Document texts are lists of characters; Python exceptions are modelled by
Option (none = the call raises).  Monetary values are modelled as rationals;
every concrete amount appearing in the claims is exactly representable in
binary floating point, so the rational model agrees with the float model of
Python on all inputs considered here.
The regular expressions of the source are hand-compiled to deterministic
scanners; each compilation step is justified in a comment at the definition
(the patterns involved never need backtracking across the points where the
scanners commit, because the relevant character classes are disjoint and no
alternation branch is a prefix of another).
-/

set_option maxRecDepth 4000

/- The arithmetic of the rational type is marked irreducible in the library,
which blocks evaluation by the decide tactic; restoring the default
reducibility inside this development lets concrete runs of the engine be
checked by the kernel. -/
attribute [local semireducible] Rat.add Rat.mul Rat.inv Rat.ofScientific Rat.sub

namespace Fiber

/-- Document texts are modelled as lists of characters. -/
abbrev PyStr := List Char

/-- Characters matched by the regex class backslash-s of Python on str
patterns (Unicode whitespace).  The properties proved below only depend on
this set containing the space character and being closed under nothing in
particular. -/
def isPySpace (c : Char) : Bool :=
  let n := c.toNat
  n == 32 || n == 9 || n == 10 || n == 13 || n == 11 || n == 12 ||
  n == 0x1c || n == 0x1d || n == 0x1e || n == 0x1f || n == 0x85 || n == 0xa0 ||
  n == 0x1680 || (0x2000 ≤ n && n ≤ 0x200a) || n == 0x2028 || n == 0x2029 ||
  n == 0x202f || n == 0x205f || n == 0x3000

/-- Worker for `normalize`: the flag records whether the previous character
was inside a whitespace run (so that a maximal run emits exactly one space,
at its first character). -/
def normGo : Bool → PyStr → PyStr
  | _, [] => []
  | inWS, c :: cs =>
    if isPySpace c then
      if inWS then normGo true cs else ' ' :: normGo true cs
    else c :: normGo false cs

/-- Embeds the line compact = re.sub of the whitespace-run pattern with a
single space (app.py line 170): every maximal run of whitespace characters
is replaced by one space; all other characters are kept unchanged. -/
def normalize (s : PyStr) : PyStr := normGo false s

/-- Digit test, 0-9 (the regex class used by the source patterns). -/
def isDigitCh (c : Char) : Bool := c.isDigit

/-- Character class of the count groups of the source patterns: digits and
commas. -/
def isDigitComma (c : Char) : Bool := c.isDigit || c == ','

/-- Character class of the amount groups of the source patterns: digits,
comma, period, parentheses and minus. -/
def isAmtChar (c : Char) : Bool :=
  c.isDigit || c == ',' || c == '.' || c == '(' || c == ')' || c == '-'

/-- Numeric value of a digit string (most significant first). -/
def digitsVal (s : PyStr) : Nat := s.foldl (fun a c => a * 10 + (c.toNat - 48)) 0

/-- Embeds the int() call of Python on a separator-free token: the token
must be nonempty and all digits (the tokens reaching int() in the source
come from the regex class of digits and commas, so no sign can occur). -/
def pyIntOf (s : PyStr) : Option Nat :=
  if s ≠ [] ∧ s.all isDigitCh then some (digitsVal s) else none

/-- Removal of thousands separators, the replace of comma by nothing. -/
def stripCommas (s : PyStr) : PyStr := s.filter (fun c => c ≠ ',')

/-- Embeds _clean_int of app.py (line 148): strip commas, then int(). -/
def clean_int (s : PyStr) : Option Nat := pyIntOf (stripCommas s)

/-- Embeds the three replace calls of _clean_amt: drop commas, turn an
opening parenthesis into a minus sign, drop closing parentheses. -/
def cleanAmtStr : PyStr → PyStr
  | [] => []
  | c :: cs =>
    if c = ',' then cleanAmtStr cs
    else if c = '(' then '-' :: cleanAmtStr cs
    else if c = ')' then cleanAmtStr cs
    else c :: cleanAmtStr cs

/-- Embeds the float() call of Python restricted to the characters that can
reach it here (digits, period, minus): an optional leading minus, then
either digits optionally followed by a period and more digits, or a period
followed by digits; anything else (empty digits, residue, a second period
or sign) raises, modelled as none. -/
def pyFloatOf (s : PyStr) : Option ℚ :=
  let neg := match s with | '-' :: _ => true | _ => false
  let t := match s with | '-' :: t => t | _ => s
  let ip := t.takeWhile isDigitCh
  let t2 := t.dropWhile isDigitCh
  match t2 with
  | [] =>
    if ip = [] then none
    else some (if neg then -(digitsVal ip : ℚ) else (digitsVal ip : ℚ))
  | '.' :: t3 =>
    let fp := t3.takeWhile isDigitCh
    let t4 := t3.dropWhile isDigitCh
    if t4 = [] ∧ (ip ≠ [] ∨ fp ≠ []) then
      let v : ℚ := (digitsVal ip : ℚ) + (digitsVal fp : ℚ) / ((10 : ℚ) ^ fp.length)
      some (if neg then -v else v)
    else none
  | _ => none

/-- Embeds _clean_amt of app.py (line 151): strip commas, parenthesis to
minus, then float(). -/
def clean_amt (s : PyStr) : Option ℚ := pyFloatOf (cleanAmtStr s)

/-- Matches a literal pattern case-sensitively, returning the rest of the
input. -/
def matchLit : PyStr → PyStr → Option PyStr
  | [], s => some s
  | _ :: _, [] => none
  | p :: ps, c :: cs => if p = c then matchLit ps cs else none

/-- Matches a literal pattern case-insensitively (the IGNORECASE flag of the
header pattern; the literals involved are ASCII), returning the raw matched
input characters and the rest. -/
def matchLitCI : PyStr → PyStr → Option (PyStr × PyStr)
  | [], s => some ([], s)
  | _ :: _, [] => none
  | p :: ps, c :: cs =>
    if p.toLower = c.toLower then
      (matchLitCI ps cs).map (fun g => (c :: g.1, g.2))
    else none

/-- Alternation over literal branches, tried left to right as the regex
engine does.  Among the branch sets used below no branch is a prefix of
another (the codes differ in their first letter; the two labels diverge at
their eighth character), so committing to the first branch that matches is
equivalent to the backtracking semantics of the regex engine. -/
def matchAltCI (alts : List PyStr) (s : PyStr) : Option (PyStr × PyStr) :=
  match alts with
  | [] => none
  | a :: rest =>
    match matchLitCI a s with
    | some g => some g
    | none => matchAltCI rest s

/-- Matches one required character. -/
def matchCh (c : Char) : PyStr → Option PyStr
  | x :: r => if x = c then some r else none
  | [] => none

/-- Maximal munch of a nonempty character-class group (class-plus in the
pattern).  Every use below is followed by a character outside the class, so
maximal munch is equivalent to the backtracking semantics. -/
def takeClass1 (p : Char → Bool) (s : PyStr) : Option (PyStr × PyStr) :=
  match s.takeWhile p, s.dropWhile p with
  | [], _ => none
  | g, r => some (g, r)

/-- Maximal munch of one-or-more whitespace (class backslash-s plus); every
use is followed by a non-whitespace requirement, so deterministic. -/
def takeSp1 (s : PyStr) : Option PyStr :=
  match s with
  | c :: cs => if isPySpace c then some (cs.dropWhile isPySpace) else none
  | [] => none

/-!
The category block locator.  The regex of app.py lines 171 to 175, compiled
with IGNORECASE, is the literal marker Customer Status, then whitespace,
then a double quote immediately followed by a comma, then whitespace and a
double quote, then one of the three category codes, then a closing quote, a
comma surrounded by optional whitespace, an opening quote, one of the three
human labels, a closing quote, then two quoted count fields of digits and
commas separated the same way.  The scanner below follows the pattern
character class by character class; every star or plus is followed by a
character outside its class, so maximal munch agrees with the regex engine.
-/

/-- Field separator between two quoted fields of the header pattern: the
regex fragment quote-star-comma-star-quote after the closing quote of the
previous field has already been consumed. -/
def fieldSep (s : PyStr) : Option PyStr := do
  let r := s.dropWhile isPySpace
  let r ← matchCh ',' r
  let r := r.dropWhile isPySpace
  matchCh '"' r

/-- Beginning of the header pattern: the marker literal, optional
whitespace, the quote-comma pair, optional whitespace and the opening quote
of the code field. -/
def matchHeaderStart (s : PyStr) : Option PyStr := do
  let (_, r) ← matchLitCI (("Customer Status").data) s
  let r := r.dropWhile isPySpace
  let r ← matchCh '"' r
  let r ← matchCh ',' r
  let r := r.dropWhile isPySpace
  matchCh '"' r

/-- Middle of the header pattern after the code field: the closing quote of
the code, the separator, the label alternation, its closing quote and the
separator before the first count field. -/
def matchHeaderLabel (s : PyStr) : Option PyStr := do
  let r ← matchCh '"' s
  let r ← fieldSep r
  let (_, r) ←
    matchAltCI [("Active residential").data, ("Active Commercial").data, ("VIP").data] r
  let r ← matchCh '"' r
  fieldSep r

/-- One quoted count field: the digits-and-commas group and its closing
quote; returns the group and the rest. -/
def matchCountField (s : PyStr) : Option (PyStr × PyStr) := do
  let (g, r) ← takeClass1 isDigitComma s
  let r ← matchCh '"' r
  return (g, r)

/-- Attempts the header pattern at the current position.  On success returns
the raw matched category code (group 1 of the regex, original casing), the
active-count token (group 4) and the rest of the input after the match. -/
def matchHeader (s : PyStr) : Option (PyStr × PyStr × PyStr) := do
  let r ← matchHeaderStart s
  let (code, r) ← matchAltCI [("ACT").data, ("COM").data, ("VIP").data] r
  let r ← matchHeaderLabel r
  let (_, r) ← matchCountField r
  let r ← fieldSep r
  let (g4, r) ← matchCountField r
  return (code, g4, r)

/-- One located category block: the raw code, the active-count token and the
300-character window of normalized text that precedes the match (the slice
compact from max 0 (s - 300) to s of app.py line 179). -/
structure HeaderMatch where
  code : PyStr
  actTok : PyStr
  window : PyStr
deriving DecidableEq

/-- Worker for `locate`: pre is the reversed prefix of already-scanned text
(nearest character first), so the lookback window of a match starting here
is the first 300 characters of pre, reversed.  Scanning continues after the
end of a match, exactly as finditer of Python produces non-overlapping
matches left to right.  The fuel starts at the length of the text; each
step consumes at least one character (a successful match consumes at least
the fifteen characters of the marker literal), so the fuel never runs out
before the text does. -/
def locateGo : Nat → PyStr → PyStr → List HeaderMatch
  | 0, _, _ => []
  | _ + 1, _, [] => []
  | fuel + 1, pre, c :: cs =>
    match matchHeader (c :: cs) with
    | some (code, g4, rest) =>
      let consumed := (c :: cs).length - rest.length
      ⟨code, g4, (pre.take 300).reverse⟩ ::
        locateGo fuel (((c :: cs).take consumed).reverse ++ pre) rest
    | none => locateGo fuel (c :: pre) cs

/-- Embeds header_pat.finditer over the normalized text (app.py lines
171 to 175), keeping for each match the data the loop body consumes. -/
def locate (compact : PyStr) : List HeaderMatch := locateGo compact.length [] compact

/-!
The per-block amount: the last currency token of the 300-character window
before the header (app.py lines 179 to 181).
-/

/-- Attempts the dollar pattern (a dollar sign, a digit, then any run of
amount characters) at the current position; returns the group and the rest. -/
def matchDollarAt : PyStr → Option (PyStr × PyStr)
  | '$' :: c :: cs =>
    if isDigitCh c then
      some (c :: cs.takeWhile isAmtChar, cs.dropWhile isAmtChar)
    else none
  | _ => none

/-- Worker for `dollarMatches` (fuel as in `locateGo`; a successful match
consumes at least two characters). -/
def dollarGo : Nat → PyStr → List PyStr
  | 0, _ => []
  | _ + 1, [] => []
  | fuel + 1, c :: cs =>
    match matchDollarAt (c :: cs) with
    | some (g, r) => g :: dollarGo fuel r
    | none => dollarGo fuel cs

/-- Embeds re.finditer of the dollar pattern over a lookback window (app.py
line 180): all non-overlapping matches, left to right. -/
def dollarMatches (w : PyStr) : List PyStr := dollarGo w.length w

/-- Embeds app.py line 181: the amount of a block is the cleaned last dollar
token of its window, or zero when the window holds no dollar token.  A
malformed last token makes _clean_amt raise, modelled as none. -/
def blockAmt (w : PyStr) : Option ℚ :=
  match (dollarMatches w).getLast? with
  | some tok => clean_amt tok
  | none => some 0

/-!
The explicit grand-total line (app.py line 185): the pattern is the literal
Total, optional whitespace, a colon, optional whitespace, a count token,
whitespace, a second count token, whitespace, a dollar sign and an amount
token.  Again every repeated class is followed by a character outside the
class, so the scanner below is equivalent to the regex.
-/

/-- Attempts the grand-total pattern at the current position, returning the
three groups (subscriber count, active count, amount). -/
def matchTotalAt (s : PyStr) : Option (PyStr × PyStr × PyStr) := do
  let r ← matchLit (("Total").data) s
  let r := r.dropWhile isPySpace
  let r ← matchCh ':' r
  let r := r.dropWhile isPySpace
  let (g1, r) ← takeClass1 isDigitComma r
  let r ← takeSp1 r
  let (g2, r) ← takeClass1 isDigitComma r
  let r ← takeSp1 r
  let r ← matchCh '$' r
  let (g3, _) ← takeClass1 isAmtChar r
  return (g1, g2, g3)

/-- Embeds re.search of the grand-total pattern (app.py line 185): the match
at the leftmost position where the pattern succeeds, if any. -/
def searchTotal : PyStr → Option (PyStr × PyStr × PyStr)
  | [] => none
  | c :: cs =>
    match matchTotalAt (c :: cs) with
    | some g => some g
    | none => searchTotal cs

/-!
Aggregation (app.py lines 177 to 196).  The by_status dictionary with the
three fixed keys becomes a structure with three fields; the grand dictionary
becomes a structure whose subscriber count is present exactly when the
explicit grand-total line was matched.
-/

/-- Accumulator for one category: active count and amount. -/
structure Tot where
  act : Nat
  amt : ℚ
deriving DecidableEq

/-- The by_status dictionary of app.py line 177, with its three fixed keys. -/
structure ByStatus where
  ACT : Tot
  COM : Tot
  VIP : Tot
deriving DecidableEq

/-- The initial all-zero by_status dictionary. -/
def ByStatus.zero : ByStatus := ⟨⟨0, 0⟩, ⟨0, 0⟩, ⟨0, 0⟩⟩

/-- Adds a count and an amount to the entry of the given uppercased code
(app.py lines 182 to 183).  The locator only ever produces the three fixed
codes, so the final branch is unreachable. -/
def addTot (b : ByStatus) (code : PyStr) (a : Nat) (q : ℚ) : ByStatus :=
  if code = ("ACT").data then { b with ACT := ⟨b.ACT.act + a, b.ACT.amt + q⟩ }
  else if code = ("COM").data then { b with COM := ⟨b.COM.act + a, b.COM.amt + q⟩ }
  else if code = ("VIP").data then { b with VIP := ⟨b.VIP.act + a, b.VIP.amt + q⟩ }
  else b

/-- Embeds the starts list comprehension of app.py line 174: for each header
match, the uppercased code, the cleaned active count of group 4 (a raise
while building the list is modelled as none) and the lookback window. -/
def starts : List HeaderMatch → Option (List (PyStr × Nat × PyStr))
  | [] => some []
  | h :: rest =>
    match clean_int h.actTok with
    | some n =>
      match starts rest with
      | some l => some ((h.code.map Char.toUpper, n, h.window) :: l)
      | none => none
    | none => none

/-- Embeds the accumulation loop of app.py lines 178 to 183: for each block
in order, the amount of its window is computed (none when _clean_amt
raises) and the count and amount are added to the entry of its code. -/
def accumulate : ByStatus → List (PyStr × Nat × PyStr) → Option ByStatus
  | b, [] => some b
  | b, (code, a, w) :: rest =>
    match blockAmt w with
    | some q => accumulate (addTot b code a q) rest
    | none => none

/-- The grand dictionary of app.py lines 186 to 196: the subscriber count is
present exactly when the explicit grand-total line was matched. -/
structure Grand where
  subs : Option Nat
  act : Nat
  amt : ℚ
deriving DecidableEq

/-- Embeds parse_one_pdf of app.py lines 168 to 197 from the point where the
extracted text is in hand (the pdfplumber text extraction is external I/O
performed by _read_pdf_text and is not part of the engine).  The text is
whitespace-normalized, the category blocks are located and accumulated, and
the grand total is taken from the explicit Total line when one matches,
otherwise computed as the sum over the three categories.  A Python
exception anywhere in this code is modelled as none. -/
def parse_one_pdf (text : PyStr) : Option (Grand × ByStatus) :=
  let compact := normalize text
  match starts (locate compact) with
  | none => none
  | some sts =>
    match accumulate ByStatus.zero sts with
    | none => none
    | some bys =>
      match searchTotal compact with
      | some (g1, g2, g3) =>
        match clean_int g1, clean_int g2, clean_amt g3 with
        | some s, some a, some q => some (⟨some s, a, q⟩, bys)
        | _, _, _ => none
      | none =>
        some (⟨none, bys.ACT.act + bys.COM.act + bys.VIP.act,
                     bys.ACT.amt + bys.COM.amt + bys.VIP.amt⟩, bys)

/-!
The period labeler (app.py lines 159 to 166): re.search of the pattern
Date: optional whitespace, a one-or-two-digit month, a slash, a one-or-two-
digit day, a slash, a four-digit year; then the date constructor of Python,
whose ValueError on an invalid calendar date is caught and turns into the
fallback label.
-/

/-- Matches the fragment one-or-two digits followed by a slash, consuming
the slash.  The two-digit branch is tried first (greedy); when it fails
because no slash follows, the one-digit branch needs a slash as the second
character, which is then a digit, so the fallback inside a run of digits
always fails, exactly as the regex engine backtracks. -/
def matchD12 : PyStr → Option (Nat × PyStr)
  | c1 :: c2 :: c3 :: r =>
    if isDigitCh c1 then
      if isDigitCh c2 then
        if c3 = '/' then some ((c1.toNat - 48) * 10 + (c2.toNat - 48), r) else none
      else if c2 = '/' then some (c1.toNat - 48, c3 :: r)
      else none
    else none
  | [c1, c2] =>
    if isDigitCh c1 ∧ c2 = '/' then some (c1.toNat - 48, []) else none
  | _ => none

/-- Matches exactly four digits, returning their value and the rest. -/
def match4d : PyStr → Option (Nat × PyStr)
  | a :: b :: c :: d :: r =>
    if isDigitCh a ∧ isDigitCh b ∧ isDigitCh c ∧ isDigitCh d then
      some (((a.toNat - 48) * 10 + (b.toNat - 48)) * 100 +
            ((c.toNat - 48) * 10 + (d.toNat - 48)), r)
    else none
  | _ => none

/-- Attempts the date pattern at the current position, returning month, day
and year. -/
def matchDateAt (s : PyStr) : Option (Nat × Nat × Nat) := do
  let r ← matchLit (("Date:").data) s
  let r := r.dropWhile isPySpace
  let (mo, r) ← matchD12 r
  let (da, r) ← matchD12 r
  let (yr, _) ← match4d r
  return (mo, da, yr)

/-- Embeds re.search of the date pattern (app.py line 160): the leftmost
match, if any. -/
def searchDate : PyStr → Option (Nat × Nat × Nat)
  | [] => none
  | c :: cs =>
    match matchDateAt (c :: cs) with
    | some g => some g
    | none => searchDate cs

/-- Gregorian leap-year rule, as used by the date type of Python. -/
def isLeap (y : Nat) : Bool := (y % 4 == 0 && y % 100 != 0) || y % 400 == 0

/-- Number of days of a month. -/
def daysInMonth (y m : Nat) : Nat :=
  if m = 2 then (if isLeap y then 29 else 28)
  else if m = 4 ∨ m = 6 ∨ m = 9 ∨ m = 11 then 30
  else 31

/-- Validity check of the date constructor of Python: the year between 1 and
9999, the month between 1 and 12, the day between 1 and the length of the
month; outside these bounds the constructor raises ValueError. -/
def validDate (y m d : Nat) : Bool :=
  1 ≤ y && y ≤ 9999 && 1 ≤ m && m ≤ 12 && 1 ≤ d && d ≤ daysInMonth y m

/-- Zero-padded decimal rendering of width w. -/
def padNum (w n : Nat) : PyStr :=
  let s := Nat.toDigits 10 n
  List.replicate (w - s.length) '0' ++ s

/-- The isoformat rendering of a date: four-digit year, two-digit month,
two-digit day, separated by hyphens. -/
def isoDate (y m d : Nat) : PyStr :=
  padNum 4 y ++ ('-' :: padNum 2 m) ++ ('-' :: padNum 2 d)

/-- Embeds _extract_date_label of app.py lines 159 to 166: if the date
pattern matches and the matched triple is a valid calendar date, its ISO
rendering is returned; the ValueError of an invalid triple is caught and
every other outcome returns the fallback label unchanged.  The function is
total: it never raises. -/
def extract_date_label (text : PyStr) (fallback : PyStr) : PyStr :=
  match searchDate text with
  | some (mo, da, yr) => if validDate yr mo da then isoDate yr mo da else fallback
  | none => fallback

/-!
Sample documents used by the witnesses and counterexamples below.  Each is
a plain text in the layout family of the Subscriber Counts v2 reports.
-/

/-- Document with one residential block and an explicit grand-total line
whose active count 9999 differs from the category sum 3727. -/
def docExplicitDivergent : PyStr :=
  ("Customer Status \",\"ACT\",\"Active residential\",\"3,727\",\"3,727\" Total: 4,309 9,999 $381,436.22").data

/-- Document with one commercial block, a currency token in the lookback
window and no grand-total line. -/
def docNoTotal : PyStr :=
  ("Rev $70,996.16 xx Customer Status \",\"COM\",\"Active Commercial\",\"512\",\"500\"").data

/-- Document containing a grand-total line only in the amount-first layout. -/
def docAmtFirstTotal : PyStr := ("$381,436.22 4,309 4,239 Total").data

/-- Document with a label-first grand-total line only. -/
def docLabelFirstTotal : PyStr := ("Total: 4,309 4,239 $381,436.22").data

/-- Document with a category header written without quotes, the fields
separated by commas and spaces. -/
def docUnquotedHeader : PyStr :=
  ("Customer Status , ACT , Active residential , 3,727 , 3,727").data

/-- Document with a quoted category header with whitespace around the later
field separators. -/
def docQuotedSpacedHeader : PyStr :=
  ("Customer Status \",\"ACT\" , \"Active residential\" ,\"3,727\", \"3,727\"").data

/-- Document whose grand-total line matches the layout but carries an amount
token with a second decimal point, which float() rejects. -/
def docBadTotalAmount : PyStr := ("Total: 1 2 $1.2.3").data

/-- Applies the chosen casing to one character. -/
def caseCh (b : Bool) (c : Char) : Char := if b then c.toUpper else c.toLower

/-- The code ACT with each letter in a chosen case. -/
def casedACT (b1 b2 b3 : Bool) : PyStr := [caseCh b1 'A', caseCh b2 'C', caseCh b3 'T']

/-- The code VIP with each letter in a chosen case. -/
def casedVIP (b1 b2 b3 : Bool) : PyStr := [caseCh b1 'V', caseCh b2 'I', caseCh b3 'P']

/-- A category header in the quoted comma-separated layout, with the given
raw code text and active-count token. -/
def mkHeader (code cnt : PyStr) : PyStr :=
  ("Customer Status \",\"").data ++ code ++
    ("\",\"Active residential\",\"9\",\"").data ++ cnt ++ ("\"").data

/-!
Claim theorems.
-/

/-- Helper for the idempotence of the normalizer: re-normalizing an already
normalized text is the identity, in both scanning states. -/
theorem normGo_normGo (s : PyStr) :
    normGo true (normGo true s) = normGo true s ∧
    normGo false (normGo false s) = normGo false s := by
  have hsp : isPySpace ' ' = true := rfl
  induction s with
  | nil => exact ⟨rfl, rfl⟩
  | cons c cs ih =>
    by_cases hc : isPySpace c = true
    · exact ⟨by simp [normGo, hc, ih.1], by simp [normGo, hc, hsp, ih.1]⟩
    · have hc2 : isPySpace c = false := by simpa using hc
      exact ⟨by simp [normGo, hc2, ih.2], by simp [normGo, hc2, ih.2]⟩

/-- C8: the text normalizer, which replaces every maximal whitespace run by
a single space, is idempotent: normalizing twice equals normalizing once,
for every input text. -/
theorem C8_normalize_idempotent (x : PyStr) : normalize (normalize x) = normalize x :=
  (normGo_normGo x).2

/-- C7: the numeric token cleaners satisfy the stated round trips: the count
token 3,727 cleans to 3727, the amount token 1,234.50 cleans to 1234.50 and
the parenthesized amount token (500.00) cleans to -500.00. -/
theorem C7_numeric_roundtrip :
    clean_int (("3,727").data) = some 3727 ∧
    clean_amt (("1,234.50").data) = some (1234.50 : ℚ) ∧
    clean_amt (("(500.00)").data) = some (-500.00 : ℚ) :=
  by decide

/-- C6: the period labeler is total and never raises.  When the date scan
finds a match whose triple is a valid calendar date, the ISO rendering of
that date is returned; when the matched triple is not a valid calendar date
(such as month 13, day 45) or when no match exists, the fallback label is
returned unchanged. -/
theorem C6_extract_period_total (text fb : PyStr) :
    (∀ mo da yr, searchDate text = some (mo, da, yr) → validDate yr mo da = true →
      extract_date_label text fb = isoDate yr mo da) ∧
    (∀ mo da yr, searchDate text = some (mo, da, yr) → validDate yr mo da = false →
      extract_date_label text fb = fb) ∧
    (searchDate text = none → extract_date_label text fb = fb) := by
  refine ⟨?_, ?_, ?_⟩
  · intro mo da yr h hv
    simp [extract_date_label, h, hv]
  · intro mo da yr h hv
    simp [extract_date_label, h, hv]
  · intro h
    simp [extract_date_label, h]

/-- Witness for C6: the unparsable date of the spec example falls back to
the supplied label, and a valid date is rendered in ISO form. -/
theorem C6_witness :
    extract_date_label (("Date: 13/45/2024").data) (("report.pdf").data) = ("report.pdf").data ∧
    extract_date_label (("Date: 1/2/2024").data) (("report.pdf").data) = ("2024-01-02").data := by
  constructor
  · exact (C6_extract_period_total (("Date: 13/45/2024").data) (("report.pdf").data)).2.1
      13 45 2024 (by decide) (by decide)
  · exact ((C6_extract_period_total (("Date: 1/2/2024").data) (("report.pdf").data)).1
      1 2 2024 (by decide) (by decide)).trans (by decide)

/-- C9: a located block whose lookback window holds no currency token still
contributes its active count, with an amount of exactly zero; the missing
amount is not an error. -/
theorem C9_missing_amount_zero (code : PyStr) (a : Nat) (w : PyStr) (b : ByStatus)
    (rest : List (PyStr × Nat × PyStr)) (h : dollarMatches w = []) :
    blockAmt w = some 0 ∧
    accumulate b ((code, a, w) :: rest) = accumulate (addTot b code a 0) rest := by
  have hb : blockAmt w = some 0 := by simp [blockAmt, h]
  exact ⟨hb, by simp [accumulate, hb]⟩

/-- Witness for C9 at a concrete dollar-free window. -/
theorem C9_witness :
    blockAmt (("no amount here").data) = some 0 ∧
    accumulate ByStatus.zero [(("ACT").data, 3727, ("no amount here").data)] =
      accumulate (addTot ByStatus.zero (("ACT").data) 3727 0) [] :=
  C9_missing_amount_zero (("ACT").data) 3727 (("no amount here").data) ByStatus.zero []
    (by decide)

/-- C1: when the explicit grand-total line is matched and its three numeric
fields parse, the returned grand total carries exactly the parsed values.
The per-category accumulators do not appear in the returned grand total at
all, so an explicit line that diverges from the category sum is returned
unchanged rather than corrected. -/
theorem C1_explicit_total_authoritative (text : PyStr)
    (sts : List (PyStr × Nat × PyStr)) (bys : ByStatus)
    (g1 g2 g3 : PyStr) (s a : Nat) (q : ℚ)
    (hst : starts (locate (normalize text)) = some sts)
    (hacc : accumulate ByStatus.zero sts = some bys)
    (hT : searchTotal (normalize text) = some (g1, g2, g3))
    (h1 : clean_int g1 = some s) (h2 : clean_int g2 = some a)
    (h3 : clean_amt g3 = some q) :
    parse_one_pdf text = some (⟨some s, a, q⟩, bys) := by
  simp only [parse_one_pdf, hst, hacc, hT, h1, h2, h3]

/-- Witness for C1 at a concrete document whose explicit line reads an
active count of 9999 while the per-category sum is 3727: the explicit
values are returned unchanged, divergence and all. -/
theorem C1_witness :
    parse_one_pdf docExplicitDivergent =
      some (⟨some 4309, 9999, (381436.22 : ℚ)⟩, ⟨⟨3727, 0⟩, ⟨0, 0⟩, ⟨0, 0⟩⟩) ∧
    9999 ≠ 3727 + 0 + 0 :=
  ⟨C1_explicit_total_authoritative docExplicitDivergent
      [(("ACT").data, 3727, [])] ⟨⟨3727, 0⟩, ⟨0, 0⟩, ⟨0, 0⟩⟩
      (("4,309").data) (("9,999").data) (("381,436.22").data) 4309 9999 (381436.22 : ℚ)
      (by decide) (by decide) (by decide) (by decide) (by decide) (by decide),
   by decide⟩

/-- C2: when no explicit grand-total line is matched, the returned grand
total has no subscriber count, its active count is the sum of the three
per-category active counts and its amount is the sum of the three
per-category amounts. -/
theorem C2_fallback_sums (text : PyStr)
    (sts : List (PyStr × Nat × PyStr)) (bys : ByStatus)
    (hst : starts (locate (normalize text)) = some sts)
    (hacc : accumulate ByStatus.zero sts = some bys)
    (hT : searchTotal (normalize text) = none) :
    parse_one_pdf text =
      some (⟨none, bys.ACT.act + bys.COM.act + bys.VIP.act,
                   bys.ACT.amt + bys.COM.amt + bys.VIP.amt⟩, bys) := by
  simp only [parse_one_pdf, hst, hacc, hT]

/-- Witness for C2 at a concrete document with one commercial block and no
grand-total line. -/
theorem C2_witness :
    parse_one_pdf docNoTotal =
      some (⟨none, 500, (70996.16 : ℚ)⟩, ⟨⟨0, 0⟩, ⟨500, (70996.16 : ℚ)⟩, ⟨0, 0⟩⟩) :=
  (C2_fallback_sums docNoTotal
      [(("COM").data, 500, ("Rev $70,996.16 xx ").data)]
      ⟨⟨0, 0⟩, ⟨500, (70996.16 : ℚ)⟩, ⟨0, 0⟩⟩
      (by decide) (by decide) (by decide)).trans (by decide)

/-- Counterexample to C3: a document containing a grand-total line only in
the amount-first layout does not yield an explicit grand total; the search
finds nothing and the engine returns the computed-sum fallback (no
subscriber count, all-zero sums) instead of the 4,239 the line carries. -/
theorem C3_counterexample :
    parse_one_pdf docAmtFirstTotal = some (⟨none, 0, 0⟩, ByStatus.zero) ∧
    searchTotal (normalize docAmtFirstTotal) = none := by decide

/-- C3 as amended: the aggregator locates an explicit grand-total line only
in the label-first layout (label, colon, subscriber count, active count,
dollar amount); a text containing only the amount-first layout does not
match and is handled by the computed-sum fallback. -/
theorem C3_label_first_layout_only :
    searchTotal (normalize docLabelFirstTotal) =
      some ((("4,309").data), (("4,239").data), (("381,436.22").data)) ∧
    searchTotal (normalize docAmtFirstTotal) = none := by decide

/-- Counterexample to C4: an unquoted category header is not located at all;
the document contributes nothing, leaving every category at zero, rather
than contributing its active count of 3,727. -/
theorem C4_counterexample :
    parse_one_pdf docUnquotedHeader = some (⟨none, 0, 0⟩, ByStatus.zero) ∧
    locate (normalize docUnquotedHeader) = [] := by decide

/-- C4 as amended: the category block locator requires the quoted,
comma-separated header layout; whitespace around the separators is
tolerated (except between the first closing quote and its comma, where the
pattern demands adjacency), but a header with unquoted fields is not
located and contributes nothing. -/
theorem C4_quoted_layout_required :
    parse_one_pdf docQuotedSpacedHeader =
      some (⟨none, 3727, 0⟩, ⟨⟨3727, 0⟩, ⟨0, 0⟩, ⟨0, 0⟩⟩) ∧
    parse_one_pdf docUnquotedHeader = some (⟨none, 0, 0⟩, ByStatus.zero) := by decide

/-- Counterexample to C5: a document whose grand-total line is located but
whose amount token cannot be parsed makes extraction fail (the engine
raises, modelled as none); it does not degrade to the computed-sum
fallback. -/
theorem C5_counterexample :
    searchTotal (normalize docBadTotalAmount) =
      some ((("1").data), (("2").data), (("1.2.3").data)) ∧
    parse_one_pdf docBadTotalAmount = none := by decide

/-- C5 as amended: whenever the grand-total line is matched but its amount
field fails to parse, extraction of the whole document fails; the
computed-sum fallback applies only when no grand-total line matches at
all. -/
theorem C5_unparsable_total_raises (text : PyStr)
    (sts : List (PyStr × Nat × PyStr)) (bys : ByStatus) (g1 g2 g3 : PyStr)
    (hst : starts (locate (normalize text)) = some sts)
    (hacc : accumulate ByStatus.zero sts = some bys)
    (hT : searchTotal (normalize text) = some (g1, g2, g3))
    (h3 : clean_amt g3 = none) :
    parse_one_pdf text = none := by
  simp only [parse_one_pdf, hst, hacc, hT, h3]
  cases h1 : clean_int g1 <;> cases h2 : clean_int g2 <;> rfl

/-- Witness for the amended C5 at the concrete document with the malformed
amount token. -/
theorem C5_witness : parse_one_pdf docBadTotalAmount = none :=
  C5_unparsable_total_raises docBadTotalAmount [] ByStatus.zero
    (("1").data) (("2").data) (("1.2.3").data)
    (by decide) (by decide) (by decide) (by decide)

/-- C10: category-header matching is case-insensitive in the category code:
a header whose code is written in any casing of ACT or VIP is located and
accumulated under the corresponding uppercase key, so differently-cased
occurrences of the same code sum into one category (here 100 under a cased
ACT plus 50 under the literal ACT give 150). -/
theorem C10_case_insensitive :
    (∀ b1 b2 b3 : Bool,
      parse_one_pdf (mkHeader (casedACT b1 b2 b3) (("100").data) ++
          (' ' :: mkHeader (("ACT").data) (("50").data))) =
        some (⟨none, 150, 0⟩, ⟨⟨150, 0⟩, ⟨0, 0⟩, ⟨0, 0⟩⟩)) ∧
    (∀ b1 b2 b3 : Bool,
      parse_one_pdf (mkHeader (casedVIP b1 b2 b3) (("12").data)) =
        some (⟨none, 12, 0⟩, ⟨⟨0, 0⟩, ⟨0, 0⟩, ⟨12, 0⟩⟩)) := by
  constructor <;>
    (intro b1 b2 b3; cases b1 <;> cases b2 <;> cases b3 <;> decide)

end Fiber
